import Mathlib

/-!
Verification development for the networking/HTTP bridging layer of the
crankstart repository (src/src/network.rs).

The Rust source is shallowly embedded: pure helpers become Lean functions,
the mutable per-connection state (callback slot table, native trampoline
registration, RefCell borrow flag) becomes explicit state passing, and
fallible operations return explicit outcome values.  Native host functions
(the `playdate_http` C function-pointer table) are modelled as optional
behaviours: `none` models an absent function pointer (pd_func_caller then
fails with a recoverable error), `some v` models a present function whose
call returns `v`.  Raw pointers are modelled as `Nat` identifiers with
`Option` for nullability; byte strings (`&str` / `&[u8]`) are `List UInt8`.
-/

namespace CrankstartNet

/-- Modelled from the spec: the closed PDNetErr enumeration is defined by the
crankstart-sys bindings crate of this repository, which is not under src/.
The spec fixes only that the set is closed, that NET_OK is the success
sentinel and that error codes are negative (§4.4, §6); the variant list is
taken from the match arms of `describe_net_err` in src/src/network.rs. -/
inductive PDNetErr where
  | NET_OK
  | NET_NO_DEVICE
  | NET_BUSY
  | NET_WRITE_ERROR
  | NET_WRITE_BUSY
  | NET_WRITE_TIMEOUT
  | NET_READ_ERROR
  | NET_READ_BUSY
  | NET_READ_TIMEOUT
  | NET_READ_OVERFLOW
  | NET_FRAME_ERROR
  | NET_BAD_RESPONSE
  | NET_ERROR_RESPONSE
  | NET_RESET_TIMEOUT
  | NET_BUFFER_TOO_SMALL
  | NET_UNEXPECTED_RESPONSE
  | NET_NOT_CONNECTED_TO_AP
  | NET_NOT_IMPLEMENTED
  | NET_CONNECTION_CLOSED
deriving DecidableEq

/-- Modelled from the spec: the numeric value of each PDNetErr member (the
`as i32` casts in `describe_net_err`) lives in the crankstart-sys bindings,
not under src/.  Per the spec, NET_OK is 0 and the error members are
distinct negative codes; they are assigned -1 .. -18 in declaration order,
following the firmware C header. -/
def netErrCode : PDNetErr → Int
  | .NET_OK => 0
  | .NET_NO_DEVICE => -1
  | .NET_BUSY => -2
  | .NET_WRITE_ERROR => -3
  | .NET_WRITE_BUSY => -4
  | .NET_WRITE_TIMEOUT => -5
  | .NET_READ_ERROR => -6
  | .NET_READ_BUSY => -7
  | .NET_READ_TIMEOUT => -8
  | .NET_READ_OVERFLOW => -9
  | .NET_FRAME_ERROR => -10
  | .NET_BAD_RESPONSE => -11
  | .NET_ERROR_RESPONSE => -12
  | .NET_RESET_TIMEOUT => -13
  | .NET_BUFFER_TOO_SMALL => -14
  | .NET_UNEXPECTED_RESPONSE => -15
  | .NET_NOT_CONNECTED_TO_AP => -16
  | .NET_NOT_IMPLEMENTED => -17
  | .NET_CONNECTION_CLOSED => -18

/-- The stable diagnostic tag each PDNetErr member renders to, exactly the
string literals of the match arms of `describe_net_err` in network.rs. -/
def netErrTag : PDNetErr → String
  | .NET_OK => "NET_OK"
  | .NET_NO_DEVICE => "NET_NO_DEVICE"
  | .NET_BUSY => "NET_BUSY"
  | .NET_WRITE_ERROR => "NET_WRITE_ERROR"
  | .NET_WRITE_BUSY => "NET_WRITE_BUSY"
  | .NET_WRITE_TIMEOUT => "NET_WRITE_TIMEOUT"
  | .NET_READ_ERROR => "NET_READ_ERROR"
  | .NET_READ_BUSY => "NET_READ_BUSY"
  | .NET_READ_TIMEOUT => "NET_READ_TIMEOUT"
  | .NET_READ_OVERFLOW => "NET_READ_OVERFLOW"
  | .NET_FRAME_ERROR => "NET_FRAME_ERROR"
  | .NET_BAD_RESPONSE => "NET_BAD_RESPONSE"
  | .NET_ERROR_RESPONSE => "NET_ERROR_RESPONSE"
  | .NET_RESET_TIMEOUT => "NET_RESET_TIMEOUT"
  | .NET_BUFFER_TOO_SMALL => "NET_BUFFER_TOO_SMALL"
  | .NET_UNEXPECTED_RESPONSE => "NET_UNEXPECTED_RESPONSE"
  | .NET_NOT_CONNECTED_TO_AP => "NET_NOT_CONNECTED_TO_AP"
  | .NET_NOT_IMPLEMENTED => "NET_NOT_IMPLEMENTED"
  | .NET_CONNECTION_CLOSED => "NET_CONNECTION_CLOSED"

/-- Embedding of `describe_net_err` (network.rs:672-695): a guard chain
comparing the raw integer against each member of the closed enumeration in
declaration order, with a generic fallback for unknown codes. -/
def describe_net_err (value : Int) : String :=
  if value = netErrCode PDNetErr.NET_OK then "NET_OK"
  else if value = netErrCode PDNetErr.NET_NO_DEVICE then "NET_NO_DEVICE"
  else if value = netErrCode PDNetErr.NET_BUSY then "NET_BUSY"
  else if value = netErrCode PDNetErr.NET_WRITE_ERROR then "NET_WRITE_ERROR"
  else if value = netErrCode PDNetErr.NET_WRITE_BUSY then "NET_WRITE_BUSY"
  else if value = netErrCode PDNetErr.NET_WRITE_TIMEOUT then "NET_WRITE_TIMEOUT"
  else if value = netErrCode PDNetErr.NET_READ_ERROR then "NET_READ_ERROR"
  else if value = netErrCode PDNetErr.NET_READ_BUSY then "NET_READ_BUSY"
  else if value = netErrCode PDNetErr.NET_READ_TIMEOUT then "NET_READ_TIMEOUT"
  else if value = netErrCode PDNetErr.NET_READ_OVERFLOW then "NET_READ_OVERFLOW"
  else if value = netErrCode PDNetErr.NET_FRAME_ERROR then "NET_FRAME_ERROR"
  else if value = netErrCode PDNetErr.NET_BAD_RESPONSE then "NET_BAD_RESPONSE"
  else if value = netErrCode PDNetErr.NET_ERROR_RESPONSE then "NET_ERROR_RESPONSE"
  else if value = netErrCode PDNetErr.NET_RESET_TIMEOUT then "NET_RESET_TIMEOUT"
  else if value = netErrCode PDNetErr.NET_BUFFER_TOO_SMALL then "NET_BUFFER_TOO_SMALL"
  else if value = netErrCode PDNetErr.NET_UNEXPECTED_RESPONSE then "NET_UNEXPECTED_RESPONSE"
  else if value = netErrCode PDNetErr.NET_NOT_CONNECTED_TO_AP then "NET_NOT_CONNECTED_TO_AP"
  else if value = netErrCode PDNetErr.NET_NOT_IMPLEMENTED then "NET_NOT_IMPLEMENTED"
  else if value = netErrCode PDNetErr.NET_CONNECTION_CLOSED then "NET_CONNECTION_CLOSED"
  else "Unknown(" ++ toString value ++ ")"

/-- Modelled from the spec: `accessReply` is defined by the crankstart-sys
bindings, not under src/.  The spec (§4.3) distinguishes only the
"decision pending" value (`kAccessAsk`) from synchronously-known answers;
the other two members are the deny/allow answers. -/
inductive accessReply where
  | kAccessAsk
  | kAccessDeny
  | kAccessAllow
deriving DecidableEq

/-- Result of one wrapper operation: `ok` and `err` are the two arms of the
Rust `Result`; `panic` models a Rust panic/abort (assert failure or
`unwrap` of an `Err`), after which no state survives. -/
inductive Outcome (α : Type) where
  | ok (a : α)
  | err (msg : String)
  | panic (msg : String)
deriving DecidableEq

/-- Trace tag for each native host call actually issued by an operation. -/
inductive NativeCall where
  | requestAccess
  | newConnection
  | setUserdata
  | getUserdata
  | get
  | post
  | query
  | read
  | close
  | release
  | setConnectTimeout
  | setKeepAlive
  | setByteRange
  | setReadTimeout
  | setReadBufferSize
deriving DecidableEq

/-- The `playdate_http` native function table.  Every entry is an `Option`,
`none` modelling an absent (null) function pointer.  A present entry is
modelled by the value its call returns: the wrapper code treats the native
functions as opaque, so a single returned value per call is fully general
for the single-call operations verified here. -/
structure HttpApi where
  requestAccess : Option accessReply
  newConnection : Option (Option Nat)
  get : Option PDNetErr
  post : Option PDNetErr
  query : Option PDNetErr
  read : Option Int
  close : Option Unit
  release : Option Unit
  getUserdata : Option Unit
  setUserdata : Option Unit
  setConnectTimeout : Option Unit
  setKeepAlive : Option Unit
  setByteRange : Option Unit
  setReadTimeout : Option Unit
  setReadBufferSize : Option Unit
  setHeaderReceivedCallback : Option Unit
  setHeadersReadCallback : Option Unit
  setResponseCallback : Option Unit
  setRequestCompleteCallback : Option Unit
  setConnectionClosedCallback : Option Unit
deriving DecidableEq

/-- Embedding of `CString::new` (used via `cstr_core`): fails exactly when
the byte string contains an embedded nul terminator. -/
def cstring_new (s : List UInt8) : Except String (List UInt8) :=
  if (0 : UInt8) ∈ s then .error "nul byte found in provided data"
  else .ok s

/-- Embedding of `optional_cstring` (network.rs:651-655). -/
def optional_cstring (value : Option (List UInt8)) :
    Except String (Option (List UInt8)) :=
  match value with
  | none => .ok none
  | some s => (cstring_new s).map some

/-- Embedding of `buffer_ptr_and_len` (network.rs:657-662): first component
is whether the passed pointer is null, second is the passed length.  No nul
scan happens here — the buffer travels with an explicit length. -/
def buffer_ptr_and_len (buffer : Option (List UInt8)) : Bool × Nat :=
  match buffer with
  | some data => if data ≠ [] then (false, data.length) else (true, 0)
  | none => (true, 0)

/-- Embedding of `ensure_net_ok` (network.rs:664-670). -/
def ensure_net_ok (err : PDNetErr) (context : String) : Outcome Unit :=
  if err = PDNetErr.NET_OK then .ok ()
  else .err (context ++ " failed with " ++ netErrTag err)

/-- Embedding of `len_to_c_uint` (network.rs:697-703). -/
def len_to_c_uint (len : Nat) : Except String Nat :=
  if len > 4294967295 then
    .error ("Length " ++ toString len ++ " exceeds c_uint max")
  else .ok len

/-- Embedding of `HttpConnection::get` (network.rs:415-426).  Returns the
operation outcome together with the trace of native calls issued. -/
def http_get (api : HttpApi) (path : List UInt8) (headers : Option (List UInt8)) :
    Outcome Unit × List NativeCall :=
  match cstring_new path with
  | .error e => (.err e, [])
  | .ok _ =>
    let _hdr := buffer_ptr_and_len headers
    match api.get with
    | none => (.err "self.api().get did not contain a function pointer", [])
    | some err => (ensure_net_ok err "http.get", [.get])

/-- Embedding of `HttpConnection::post` (network.rs:428-442). -/
def http_post (api : HttpApi) (path : List UInt8) (headers : Option (List UInt8))
    (body : Option (List UInt8)) : Outcome Unit × List NativeCall :=
  match cstring_new path with
  | .error e => (.err e, [])
  | .ok _ =>
    let _hdr := buffer_ptr_and_len headers
    let _body := buffer_ptr_and_len body
    match api.post with
    | none => (.err "self.api().post did not contain a function pointer", [])
    | some err => (ensure_net_ok err "http.post", [.post])

/-- Embedding of `HttpConnection::query` (network.rs:444-466): the method
string is serialized first, then the path. -/
def http_query (api : HttpApi) (method : List UInt8) (path : List UInt8)
    (headers : Option (List UInt8)) (body : Option (List UInt8)) :
    Outcome Unit × List NativeCall :=
  match cstring_new method with
  | .error e => (.err e, [])
  | .ok _ =>
  match cstring_new path with
  | .error e => (.err e, [])
  | .ok _ =>
    let _hdr := buffer_ptr_and_len headers
    let _body := buffer_ptr_and_len body
    match api.query with
    | none => (.err "self.api().query did not contain a function pointer", [])
    | some err => (ensure_net_ok err "http.query", [.query])

/-- Embedding of `HttpConnection::read` (network.rs:508-528).  The
`assert!` on an empty buffer is a panic; the length conversion happens
before the native-function-pointer lookup. -/
def http_read (api : HttpApi) (buffer_len : Nat) : Outcome Nat × List NativeCall :=
  if buffer_len = 0 then
    (.panic "Buffer must not be empty to distinguish from EOF", [])
  else
    match len_to_c_uint buffer_len with
    | .error e => (.err e, [])
    | .ok _ =>
      match api.read with
      | none => (.err "self.api().read did not contain a function pointer", [])
      | some result =>
        if 0 ≤ result then (.ok result.toNat, [.read])
        else (.err ("http.read returned error " ++ describe_net_err result), [.read])

/-- Embedding of `HttpConnection::discard` (network.rs:530-544). -/
def http_discard (api : HttpApi) (len : Nat) : Outcome Nat × List NativeCall :=
  if len = 0 then (.ok 0, [])
  else
    match len_to_c_uint len with
    | .error e => (.err e, [])
    | .ok _ =>
      match api.read with
      | none => (.err "self.api().read did not contain a function pointer", [])
      | some result =>
        if 0 ≤ result then (.ok result.toNat, [.read])
        else (.err ("http.read(discard) returned error " ++ describe_net_err result), [.read])

/-- Embedding of `HttpConnectionInner::drop` (network.rs:234-253): the inner
`do_drop` sequence with its `Result` unwrapped — any failing native lookup
during teardown becomes a panic. -/
def http_connection_inner_drop (api : HttpApi) : Outcome Unit × List NativeCall :=
  match api.getUserdata with
  | none => (.panic "(*conn.raw_http).getUserdata did not contain a function pointer", [])
  | some _ =>
    match api.setUserdata with
    | none => (.panic "(*conn.raw_http).setUserdata did not contain a function pointer", [.getUserdata])
    | some _ =>
      match api.close with
      | none => (.panic "(*conn.raw_http).close did not contain a function pointer", [.getUserdata, .setUserdata])
      | some _ =>
        match api.release with
        | none => (.panic "(*conn.raw_http).release did not contain a function pointer", [.getUserdata, .setUserdata, .close])
        | some _ => (.ok (), [.getUserdata, .setUserdata, .close, .release])

/-- Embedding of `Http::new_connection` (network.rs:179-192) composed with
`HttpConnection::from_raw` (network.rs:364-384): empty-server guard, nul
check, native constructor (absent pointer is a recoverable error, null
return a protocol violation), then installation of the weak userdata
backreference.  When the setUserdata pointer is absent, from_raw's error
return drops the freshly created Rc inner before the error can propagate,
so `HttpConnectionInner::drop` runs — and its `do_drop(...).unwrap()`
itself needs setUserdata, so it necessarily panics: the call aborts
instead of returning an error, with whatever teardown panic and native
calls the drop produces on this host.  The `ok` value is the wrapped raw
connection identifier. -/
def new_connection (api : HttpApi) (server : List UInt8) (port : Int)
    (use_ssl : Bool) : Outcome Nat × List NativeCall :=
  if server = [] then (.err "HTTP connections require a non-empty server", [])
  else
    match cstring_new server with
    | .error e => (.err e, [])
    | .ok _ =>
      match api.newConnection with
      | none => (.err "self.api().newConnection did not contain a function pointer", [])
      | some raw_connection =>
        match raw_connection with
        | none => (.err "HTTP connection creation returned null (permission denied?)", [.newConnection])
        | some p =>
          match api.setUserdata with
          | none =>
            let dropped := http_connection_inner_drop api
            let outcome : Outcome Nat :=
              match dropped.1 with
              | .panic e => .panic e
              | _ => .err "(*raw_http).setUserdata did not contain a function pointer"
            (outcome, .newConnection :: dropped.2)
          | some _ => (.ok p, [.newConnection, .setUserdata])

/-- Embedding of `HttpConnection::set_connect_timeout` (network.rs:394-400).
`pd_func_caller` resolves the function pointer before the macro arguments
run the checked `u32 → c_int` conversion. -/
def set_connect_timeout (api : HttpApi) (timeout_ms : Nat) :
    Outcome Unit × List NativeCall :=
  match api.setConnectTimeout with
  | none => (.err "self.api().setConnectTimeout did not contain a function pointer", [])
  | some _ =>
    if timeout_ms ≤ 2147483647 then (.ok (), [.setConnectTimeout])
    else (.err "out of range integral type conversion attempted", [])

/-- Embedding of `HttpConnection::set_keep_alive` (network.rs:402-404). -/
def set_keep_alive (api : HttpApi) (keep_alive : Bool) :
    Outcome Unit × List NativeCall :=
  match api.setKeepAlive with
  | none => (.err "self.api().setKeepAlive did not contain a function pointer", [])
  | some _ => (.ok (), [.setKeepAlive])

/-- Embedding of `HttpConnection::set_byte_range` (network.rs:406-413). -/
def set_byte_range (api : HttpApi) (start : Nat) (end_ : Nat) :
    Outcome Unit × List NativeCall :=
  match api.setByteRange with
  | none => (.err "self.api().setByteRange did not contain a function pointer", [])
  | some _ =>
    if start ≤ 2147483647 then
      if end_ ≤ 2147483647 then (.ok (), [.setByteRange])
      else (.err "out of range integral type conversion attempted", [])
    else (.err "out of range integral type conversion attempted", [])

/-- Embedding of `HttpConnection::set_read_timeout` (network.rs:492-498). -/
def set_read_timeout (api : HttpApi) (timeout_ms : Nat) :
    Outcome Unit × List NativeCall :=
  match api.setReadTimeout with
  | none => (.err "self.api().setReadTimeout did not contain a function pointer", [])
  | some _ =>
    if timeout_ms ≤ 2147483647 then (.ok (), [.setReadTimeout])
    else (.err "out of range integral type conversion attempted", [])

/-- Embedding of `HttpConnection::set_read_buffer_size` (network.rs:500-506). -/
def set_read_buffer_size (api : HttpApi) (bytes : Nat) :
    Outcome Unit × List NativeCall :=
  match api.setReadBufferSize with
  | none => (.err "self.api().setReadBufferSize did not contain a function pointer", [])
  | some _ =>
    if bytes ≤ 2147483647 then (.ok (), [.setReadBufferSize])
    else (.err "out of range integral type conversion attempted", [])

/-- Heap of live boxed `AccessRequestState` allocations: each live entry is
its raw address (a fresh identifier) paired with the content of its
one-shot callback slot. -/
structure AccessHeap where
  nextId : Nat
  live : List (Nat × Option Nat)
deriving DecidableEq

/-- Everything observable about one `request_access` call: the returned
reply, the heap of boxed states after the call, the userdata pointer handed
to the host with the native call (none if null or no native call was made),
and the native-call trace. -/
structure AccessCallResult where
  reply : Outcome accessReply
  heap : AccessHeap
  hostUserdata : Option Nat
  trace : List NativeCall
deriving DecidableEq

/-- Embedding of `Http::request_access` (network.rs:132-177): serialize the
optional strings, box the callback (if any) and hand its raw address to the
host, then — if the host answered synchronously (reply other than
`kAccessAsk`) — reclaim and drop the boxed state immediately. -/
def request_access (api : HttpApi) (server : Option (List UInt8)) (port : Int)
    (use_ssl : Bool) (purpose : Option (List UInt8)) (callback : Option Nat)
    (heap : AccessHeap) : AccessCallResult :=
  match optional_cstring server with
  | .error e => ⟨.err e, heap, none, []⟩
  | .ok _ =>
  match optional_cstring purpose with
  | .error e => ⟨.err e, heap, none, []⟩
  | .ok _ =>
    let alloc : Option Nat × AccessHeap :=
      match callback with
      | some cb => (some heap.nextId,
          { nextId := heap.nextId + 1, live := heap.live ++ [(heap.nextId, some cb)] })
      | none => (none, heap)
    let callback_state := alloc.1
    let heap1 := alloc.2
    match api.requestAccess with
    | none => ⟨.err "self.api().requestAccess did not contain a function pointer", heap1, none, []⟩
    | some reply =>
      let heap2 :=
        if reply ≠ accessReply.kAccessAsk then
          match callback_state with
          | some id => { heap1 with live := heap1.live.filter (fun a => a.1 != id) }
          | none => heap1
        else heap1
      ⟨.ok reply, heap2, callback_state, [.requestAccess]⟩

/-- Embedding of `http_access_request_callback` (network.rs:201-211): null
userdata is ignored; otherwise the boxed state is reclaimed
(`Box::from_raw`, a fault if the allocation is no longer live) and its
one-shot closure, if still present, is invoked.  The returned list holds
the identifiers of the closures invoked. -/
def http_access_request_callback (allowed : Bool) (userdata : Option Nat)
    (heap : AccessHeap) : Outcome (AccessHeap × List Nat) :=
  match userdata with
  | none => .ok (heap, [])
  | some id =>
    match heap.live.find? (fun a => a.1 == id) with
    | none => .panic "Box::from_raw of an already reclaimed AccessRequestState"
    | some state =>
      let heap1 := { heap with live := heap.live.filter (fun a => a.1 != id) }
      match state.2 with
      | none => .ok (heap1, [])
      | some cb => .ok (heap1, [cb])

/-- A host table with every function pointer absent; concrete test hosts
are built below by overriding individual fields. -/
def apiNone : HttpApi :=
  { requestAccess := none, newConnection := none, get := none, post := none,
    query := none, read := none, close := none, release := none,
    getUserdata := none, setUserdata := none, setConnectTimeout := none,
    setKeepAlive := none, setByteRange := none, setReadTimeout := none,
    setReadBufferSize := none, setHeaderReceivedCallback := none,
    setHeadersReadCallback := none, setResponseCallback := none,
    setRequestCompleteCallback := none, setConnectionClosedCallback := none }

/-- The five callback event kinds of the connection (network.rs:213-220). -/
inductive EventKind where
  | headerReceived
  | headersRead
  | response
  | requestComplete
  | connectionClosed
deriving DecidableEq

/-- Embedding of `HttpCallbackSlots` (network.rs:213-220): one optional
boxed closure per event kind; closures are opaque identifiers. -/
structure HttpCallbackSlots where
  header_received : Option Nat
  headers_read : Option Nat
  response : Option Nat
  request_complete : Option Nat
  connection_closed : Option Nat
deriving DecidableEq

/-- The native side's trampoline registration state, one flag per event
kind: true after a setter call passed `Some(trampoline)` to the native
registration function, false after it passed `None` (and initially). -/
structure NativeRegistration where
  header_received : Bool
  headers_read : Bool
  response : Bool
  request_complete : Bool
  connection_closed : Bool
deriving DecidableEq

/-- Slot selected by an event kind. -/
def slotOf (s : HttpCallbackSlots) : EventKind → Option Nat
  | .headerReceived => s.header_received
  | .headersRead => s.headers_read
  | .response => s.response
  | .requestComplete => s.request_complete
  | .connectionClosed => s.connection_closed

/-- Registration flag selected by an event kind. -/
def regOf (r : NativeRegistration) : EventKind → Bool
  | .headerReceived => r.header_received
  | .headersRead => r.headers_read
  | .response => r.response
  | .requestComplete => r.request_complete
  | .connectionClosed => r.connection_closed

/-- State of one live connection together with the native side's view of
it: the managed slot table (`HttpConnectionInner.callbacks`), the RefCell's
dynamic borrow flag, and the native trampoline registration. -/
structure ConnState where
  slots : HttpCallbackSlots
  borrowed : Bool
  registered : NativeRegistration
deriving DecidableEq

/-- A fresh connection, as built by `HttpConnection::from_raw`
(network.rs:364-384): default (empty) slot table, no outstanding borrow,
and no trampoline registered at the native level. -/
def initConnState : ConnState :=
  ⟨⟨none, none, none, none, none⟩, false, ⟨false, false, false, false, false⟩⟩

/-- Result of one stateful operation on a connection: `ok` and `err` carry
the post-state (an error from a missing native setter leaves the slot
already replaced), `panic` models a RefCell dynamic-borrow failure, after
which no state survives. -/
inductive CallResult (σ : Type) where
  | ok (st : σ)
  | err (msg : String) (st : σ)
  | panic (msg : String)
deriving DecidableEq

/-- Embedding of `HttpConnection::configure_simple_callback`
(network.rs:622-648), parameterized by the slot lens and registration lens
matching one of the four simple event kinds: take the slot table's mutable
borrow (overlap is a dynamic borrow failure), replace the slot's closure,
compute whether to register from the slot's new occupancy, release the
borrow, then resolve the native setter — absent is a recoverable error
(with the slot already replaced) — and register or unregister the
trampoline. -/
def configure_simple_callback (setter : Option Unit) (callback : Option Nat)
    (slotRead : HttpCallbackSlots → Option Nat)
    (slotWrite : HttpCallbackSlots → Option Nat → HttpCallbackSlots)
    (regWrite : NativeRegistration → Bool → NativeRegistration)
    (st : ConnState) : CallResult ConnState :=
  if st.borrowed then .panic "already mutably borrowed: BorrowMutError"
  else
    let slots1 := slotWrite st.slots callback
    let register := (slotRead slots1).isSome
    match setter with
    | none => .err "HTTP subsystem does not expose the requested callback"
        { st with slots := slots1 }
    | some _ => .ok
        { st with slots := slots1, registered := regWrite st.registered register }

/-- Embedding of `HttpConnection::on_header_received` (network.rs:554-572):
same discipline as the simple setters, on the header slot, registering via
`pd_func_caller` on setHeaderReceivedCallback. -/
def on_header_received (api : HttpApi) (callback : Option Nat) (st : ConnState) :
    CallResult ConnState :=
  if st.borrowed then .panic "already mutably borrowed: BorrowMutError"
  else
    let slots1 := { st.slots with header_received := callback }
    let register := slots1.header_received.isSome
    match api.setHeaderReceivedCallback with
    | none => .err "self.api().setHeaderReceivedCallback did not contain a function pointer"
        { st with slots := slots1 }
    | some _ => .ok
        { st with slots := slots1
                  registered := { st.registered with header_received := register } }

/-- Embedding of `HttpConnection::on_headers_read` (network.rs:574-584). -/
def on_headers_read (api : HttpApi) (callback : Option Nat) (st : ConnState) :
    CallResult ConnState :=
  configure_simple_callback api.setHeadersReadCallback callback
    (fun s => s.headers_read) (fun s v => { s with headers_read := v })
    (fun r b => { r with headers_read := b }) st

/-- Embedding of `HttpConnection::on_response` (network.rs:586-596). -/
def on_response (api : HttpApi) (callback : Option Nat) (st : ConnState) :
    CallResult ConnState :=
  configure_simple_callback api.setResponseCallback callback
    (fun s => s.response) (fun s v => { s with response := v })
    (fun r b => { r with response := b }) st

/-- Embedding of `HttpConnection::on_request_complete` (network.rs:598-608). -/
def on_request_complete (api : HttpApi) (callback : Option Nat) (st : ConnState) :
    CallResult ConnState :=
  configure_simple_callback api.setRequestCompleteCallback callback
    (fun s => s.request_complete) (fun s v => { s with request_complete := v })
    (fun r b => { r with request_complete := b }) st

/-- Embedding of `HttpConnection::on_connection_closed` (network.rs:610-620). -/
def on_connection_closed (api : HttpApi) (callback : Option Nat) (st : ConnState) :
    CallResult ConnState :=
  configure_simple_callback api.setConnectionClosedCallback callback
    (fun s => s.connection_closed) (fun s v => { s with connection_closed := v })
    (fun r b => { r with connection_closed := b }) st

/-- One public callback-setter call, tagged by the method invoked. -/
inductive SetterCall where
  | on_header_received (cb : Option Nat)
  | on_headers_read (cb : Option Nat)
  | on_response (cb : Option Nat)
  | on_request_complete (cb : Option Nat)
  | on_connection_closed (cb : Option Nat)
deriving DecidableEq

/-- Dispatch of one tagged setter call to its embedding. -/
def apply_setter (api : HttpApi) (call : SetterCall) (st : ConnState) :
    CallResult ConnState :=
  match call with
  | .on_header_received cb => on_header_received api cb st
  | .on_headers_read cb => on_headers_read api cb st
  | .on_response cb => on_response api cb st
  | .on_request_complete cb => on_request_complete api cb st
  | .on_connection_closed cb => on_connection_closed api cb st

/-- A sequence of callback-setter calls, stopping at the first failure; the
whole sequence was successful exactly when the result is `ok`. -/
def apply_setters (api : HttpApi) : List SetterCall → ConnState → CallResult ConnState
  | [], st => .ok st
  | c :: rest, st =>
    match apply_setter api c st with
    | .ok st1 => apply_setters api rest st1
    | .err e st1 => .err e st1
    | .panic e => .panic e

/-- World state visible to one trampoline invocation: whether the
process-wide HTTP api table and its getUserdata entry are available
(`Network::http_api_ref`), the userdata pointer the host passes back for
the connection (`none` = null), the set of weak tokens that still upgrade
(connections whose owning handle is still alive), and the connection's
state. -/
structure DispatchState where
  apiPresent : Bool
  getUserdataPresent : Bool
  userdata : Option Nat
  aliveTokens : List Nat
  conn : ConnState
deriving DecidableEq

/-- Embedding of `connection_from_userdata` (network.rs:260-276): resolve
the process-wide api table and its getUserdata entry, read the connection's
userdata pointer (null yields none), and upgrade the weak token; every
failure yields `none`. -/
def connection_from_userdata (st : DispatchState) : Option Nat :=
  if st.apiPresent then
    if st.getUserdataPresent then
      match st.userdata with
      | none => none
      | some tok => if tok ∈ st.aliveTokens then some tok else none
    else none
  else none

/-- Wrap the result of an invoked closure, recording that it was invoked. -/
def wrapInvoked (r : CallResult DispatchState) : CallResult (DispatchState × Bool) :=
  match r with
  | .ok st => .ok (st, true)
  | .err e st => .err e (st, true)
  | .panic e => .panic e

/-- Embedding of `run_simple_callback` (network.rs:278-292): resolve the
connection (a failed resolution is a no-op), take the slot table's mutable
borrow (overlap is a dynamic borrow failure), copy the closure pointer out
of the slot selected by `accessor` without removing it, release the borrow,
then — only if a closure was present — invoke it.  The closure's behaviour
is an arbitrary state transformer `body`; the Bool in the result records
whether a closure was invoked. -/
def run_simple_callback (accessor : HttpCallbackSlots → Option Nat)
    (body : DispatchState → CallResult DispatchState)
    (st : DispatchState) : CallResult (DispatchState × Bool) :=
  match connection_from_userdata st with
  | none => .ok (st, false)
  | some _ =>
    if st.conn.borrowed then .panic "already mutably borrowed: BorrowMutError"
    else
      let stB : DispatchState := { st with conn := { st.conn with borrowed := true } }
      let callback_ptr := accessor stB.conn.slots
      let stR : DispatchState := { stB with conn := { stB.conn with borrowed := false } }
      match callback_ptr with
      | none => .ok (stR, false)
      | some _ => wrapInvoked (body stR)

/-- Embedding of `run_header_callback` (network.rs:294-317): a null key or
value is ignored up front; otherwise the same dispatch as
`run_simple_callback`, on the header_received slot. -/
def run_header_callback (key value : Option (List UInt8))
    (body : DispatchState → CallResult DispatchState)
    (st : DispatchState) : CallResult (DispatchState × Bool) :=
  if key.isNone || value.isNone then .ok (st, false)
  else
    match connection_from_userdata st with
    | none => .ok (st, false)
    | some _ =>
      if st.conn.borrowed then .panic "already mutably borrowed: BorrowMutError"
      else
        let stB : DispatchState := { st with conn := { st.conn with borrowed := true } }
        let callback_ptr := stB.conn.slots.header_received
        let stR : DispatchState := { stB with conn := { stB.conn with borrowed := false } }
        match callback_ptr with
        | none => .ok (stR, false)
        | some _ => wrapInvoked (body stR)

/-- Embedding of `http_headers_read_trampoline` (network.rs:327-334). -/
def http_headers_read_trampoline :=
  run_simple_callback (fun s => s.headers_read)

/-- Embedding of `http_response_trampoline` (network.rs:336-343). -/
def http_response_trampoline :=
  run_simple_callback (fun s => s.response)

/-- Embedding of `http_request_complete_trampoline` (network.rs:345-352). -/
def http_request_complete_trampoline :=
  run_simple_callback (fun s => s.request_complete)

/-- Embedding of `http_connection_closed_trampoline` (network.rs:354-361). -/
def http_connection_closed_trampoline :=
  run_simple_callback (fun s => s.connection_closed)

/-- Embedding of `http_header_received_trampoline` (network.rs:319-325). -/
def http_header_received_trampoline :=
  run_header_callback

/-- A closure body that itself reconfigures callbacks on the same
connection: it performs the given sequence of setter calls from inside its
own invocation. -/
def reconfigure_from_closure (api : HttpApi) (calls : List SetterCall)
    (st : DispatchState) : CallResult DispatchState :=
  match apply_setters api calls st.conn with
  | .ok c => .ok { st with conn := c }
  | .err e c => .err e { st with conn := c }
  | .panic e => .panic e

end CrankstartNet

namespace CrankstartNet

/-- Claim C9: the error-code translation is total — every member of the
closed NetErr enumeration maps to its stable diagnostic tag, and every
integer outside the enumeration renders as the generic unknown-code tag
rather than failing translation. -/
theorem describe_net_err_total :
    (∀ e : PDNetErr, describe_net_err (netErrCode e) = netErrTag e) ∧
    (∀ n : Int, (∀ e : PDNetErr, n ≠ netErrCode e) →
      describe_net_err n = "Unknown(" ++ toString n ++ ")") := by
  constructor
  · intro e
    cases e <;> rfl
  · intro n h
    unfold describe_net_err
    rw [if_neg (h .NET_OK), if_neg (h .NET_NO_DEVICE), if_neg (h .NET_BUSY),
      if_neg (h .NET_WRITE_ERROR), if_neg (h .NET_WRITE_BUSY),
      if_neg (h .NET_WRITE_TIMEOUT), if_neg (h .NET_READ_ERROR),
      if_neg (h .NET_READ_BUSY), if_neg (h .NET_READ_TIMEOUT),
      if_neg (h .NET_READ_OVERFLOW), if_neg (h .NET_FRAME_ERROR),
      if_neg (h .NET_BAD_RESPONSE), if_neg (h .NET_ERROR_RESPONSE),
      if_neg (h .NET_RESET_TIMEOUT), if_neg (h .NET_BUFFER_TOO_SMALL),
      if_neg (h .NET_UNEXPECTED_RESPONSE), if_neg (h .NET_NOT_CONNECTED_TO_AP),
      if_neg (h .NET_NOT_IMPLEMENTED), if_neg (h .NET_CONNECTION_CLOSED)]

/-- Witness for C9: the concrete unknown code -999 renders as the generic
unknown tag. -/
theorem describe_net_err_total_witness :
    describe_net_err (-999) = "Unknown(" ++ toString (-999 : Int) ++ ")" :=
  describe_net_err_total.2 (-999) (by intro e; cases e <;> decide)

/-- Claim C10: a call to new_connection with an empty server string fails
with an error before any native call is issued (the native-call trace is
empty). -/
theorem new_connection_empty_server (api : HttpApi) (port : Int) (use_ssl : Bool) :
    new_connection api [] port use_ssl =
      (.err "HTTP connections require a non-empty server", []) := rfl

/-- Claim C7: for a read with a non-empty buffer, a nonnegative native
return code N yields Ok(N) (in particular Ok(0) for zero available bytes
and no error), and a negative native return code yields an error carrying
the NetErr tag that `describe_net_err` assigns to that code. -/
theorem read_return_contract (api : HttpApi) (buffer_len : Nat) (r : Int)
    (hne : buffer_len ≠ 0) (hmax : buffer_len ≤ 4294967295)
    (hr : api.read = some r) :
    (0 ≤ r → http_read api buffer_len = (.ok r.toNat, [.read])) ∧
    (r < 0 → http_read api buffer_len =
      (.err ("http.read returned error " ++ describe_net_err r), [.read])) := by
  have hgt : ¬ buffer_len > 4294967295 := by omega
  constructor
  · intro hpos
    simp [http_read, len_to_c_uint, hne, hgt, hr, hpos]
  · intro hneg
    have : ¬ (0 : Int) ≤ r := by omega
    simp [http_read, len_to_c_uint, hne, hgt, hr, this]

/-- Witness for C7: a host whose native read returns 0 gives Ok(0); a host
whose native read returns -8 (NET_READ_TIMEOUT) gives the tagged error. -/
theorem read_return_contract_witness :
    http_read { apiNone with read := some 0 } 16 = (.ok 0, [.read]) ∧
    http_read { apiNone with read := some (-8) } 16 =
      (.err ("http.read returned error " ++ describe_net_err (-8)), [.read]) :=
  ⟨(read_return_contract _ 16 0 (by decide) (by decide) rfl).1 (by decide),
   (read_return_contract _ 16 (-8) (by decide) (by decide) rfl).2 (by decide)⟩

/-- Counterexample for claim C8 as stated: on a host whose newConnection is
present and returns a non-null connection but whose setUserdata pointer is
absent, the constructor neither returns a handle nor fails with one of the
claim's two errors — installing the weak backreference fails, the
half-constructed handle is dropped, and HttpConnectionInner::drop's
unwrap panics (here after the drop's getUserdata call). -/
theorem new_connection_not_always_handle :
    new_connection
      { apiNone with newConnection := some (some 7), getUserdata := some () }
      [120] 80 false =
      (.panic "(*conn.raw_http).setUserdata did not contain a function pointer",
        [.newConnection, .getUserdata]) := rfl

/-- Claim C8 (amended): for a call with a non-empty server containing no
embedded nul, the constructor fails with a configuration error when the
host's newConnection pointer is absent, fails with a protocol-violation
error when newConnection returns null, and — provided the host's
setUserdata pointer is present so the weak backreference can be
installed — otherwise returns a handle wrapping the returned connection.
When setUserdata is absent, the call does not return at all: the
half-constructed handle's teardown runs and the call aborts with exactly
the panic and native calls HttpConnectionInner::drop produces on that
host. -/
theorem new_connection_contract (api : HttpApi) (server : List UInt8)
    (port : Int) (use_ssl : Bool)
    (hne : server ≠ []) (hnul : (0 : UInt8) ∉ server) :
    (api.newConnection = none →
      new_connection api server port use_ssl =
        (.err "self.api().newConnection did not contain a function pointer", [])) ∧
    (api.newConnection = some none →
      new_connection api server port use_ssl =
        (.err "HTTP connection creation returned null (permission denied?)", [.newConnection])) ∧
    (∀ p, api.newConnection = some (some p) → api.setUserdata = some () →
      new_connection api server port use_ssl = (.ok p, [.newConnection, .setUserdata])) ∧
    (∀ p, api.newConnection = some (some p) → api.setUserdata = none →
      ∃ e, (http_connection_inner_drop api).1 = Outcome.panic e ∧
        new_connection api server port use_ssl =
          (.panic e, .newConnection :: (http_connection_inner_drop api).2)) := by
  refine ⟨?_, ?_, ?_, ?_⟩
  · intro h
    simp [new_connection, cstring_new, hne, hnul, h]
  · intro h
    simp [new_connection, cstring_new, hne, hnul, h]
  · intro p h hu
    simp [new_connection, cstring_new, hne, hnul, h, hu]
  · intro p h hu
    cases hgu : api.getUserdata with
    | none =>
      refine ⟨"(*conn.raw_http).getUserdata did not contain a function pointer", ?_, ?_⟩ <;>
        simp [new_connection, http_connection_inner_drop, cstring_new, hne, hnul, h, hu, hgu]
    | some u =>
      refine ⟨"(*conn.raw_http).setUserdata did not contain a function pointer", ?_, ?_⟩ <;>
        simp [new_connection, http_connection_inner_drop, cstring_new, hne, hnul, h, hu, hgu]

/-- Witness for C8 (amended): the all-present host returns the wrapped
connection. -/
theorem new_connection_contract_witness :
    new_connection
      { apiNone with newConnection := some (some 7), setUserdata := some () }
      [120] 80 false = (.ok 7, [.newConnection, .setUserdata]) :=
  (new_connection_contract _ [120] 80 false (by decide) (by decide)).2.2.1 7 rfl rfl

/-- Counterexample for claim C6 as stated: a get whose header buffer
contains an embedded nul (path clean) is not rejected — the native call is
issued with the length-delimited buffer and the call succeeds. -/
theorem header_nul_not_rejected :
    http_get { apiNone with get := some PDNetErr.NET_OK } [97] (some [0]) =
      (.ok (), [.get]) := rfl

/-- Claim C6 (amended): get/post/query reject a path string — and query a
method string — containing an embedded nul with an argument error before
any native call is issued (empty trace, so connection state is untouched);
header and body buffers are passed with an explicit length and are not
scanned for embedded nuls. -/
theorem path_nul_rejected (api : HttpApi) (path method : List UInt8)
    (headers body : Option (List UInt8))
    (hp : (0 : UInt8) ∈ path) (hm : (0 : UInt8) ∉ method) :
    http_get api path headers = (.err "nul byte found in provided data", []) ∧
    http_post api path headers body = (.err "nul byte found in provided data", []) ∧
    http_query api method path headers body =
      (.err "nul byte found in provided data", []) ∧
    (∀ mth, (0 : UInt8) ∈ mth →
      http_query api mth path headers body =
        (.err "nul byte found in provided data", [])) := by
  refine ⟨?_, ?_, ?_, ?_⟩
  · simp [http_get, cstring_new, hp]
  · simp [http_post, cstring_new, hp]
  · simp [http_query, cstring_new, hp, hm]
  · intro mth hmth
    simp [http_query, cstring_new, hmth]

/-- Witness for C6 (amended): the path "/<nul>" is rejected with no native
call. -/
theorem path_nul_rejected_witness :
    http_get apiNone [47, 0] none = (.err "nul byte found in provided data", []) :=
  (path_nul_rejected apiNone [47, 0] [71] none none (by decide) (by decide)).1

/-- Counterexample for claim C5 as stated: read is on the request path, and
a read with an empty buffer panics (the `assert!` in
`HttpConnection::read`) instead of being rejected as a recoverable
error. -/
theorem read_empty_buffer_panics :
    http_read apiNone 0 =
      (.panic "Buffer must not be empty to distinguish from EOF", []) := rfl

/-- Claim C5 (amended): apart from read on an empty buffer — which fails an
assertion by design, the buffer being required non-empty to distinguish a
zero-byte read from end-of-stream — no operation on the request path
panics of its own accord: invalid arguments and absent native function
pointers surface as recoverable errors.  The one panic reachable through
new_connection is a ConnectionHandle-teardown panic, consistent with the
claim's teardown proviso: it occurs only when the host's setUserdata
pointer is absent, in which case the half-constructed handle is dropped
and the panic is exactly the one HttpConnectionInner::drop produces; that
teardown in turn panics precisely when a required native pointer is
absent. -/
theorem request_path_no_panics :
    (∀ api server port ssl e, (new_connection api server port ssl).1 = .panic e →
      api.setUserdata = none ∧ (http_connection_inner_drop api).1 = .panic e) ∧
    (∀ api path headers e, (http_get api path headers).1 ≠ .panic e) ∧
    (∀ api path headers body e, (http_post api path headers body).1 ≠ .panic e) ∧
    (∀ api method path headers body e,
      (http_query api method path headers body).1 ≠ .panic e) ∧
    (∀ api blen e, blen ≠ 0 → (http_read api blen).1 ≠ .panic e) ∧
    (∀ api len e, (http_discard api len).1 ≠ .panic e) ∧
    (∀ api t e, (set_connect_timeout api t).1 ≠ .panic e) ∧
    (∀ api b e, (set_keep_alive api b).1 ≠ .panic e) ∧
    (∀ api s t e, (set_byte_range api s t).1 ≠ .panic e) ∧
    (∀ api t e, (set_read_timeout api t).1 ≠ .panic e) ∧
    (∀ api t e, (set_read_buffer_size api t).1 ≠ .panic e) ∧
    (∀ api server port ssl purpose cb heap e,
      (request_access api server port ssl purpose cb heap).reply ≠ .panic e) ∧
    (∀ api e, (http_connection_inner_drop api).1 = .panic e →
      api.getUserdata = none ∨ api.setUserdata = none ∨
      api.close = none ∨ api.release = none) := by
  refine ⟨?_, ?_, ?_, ?_, ?_, ?_, ?_, ?_, ?_, ?_, ?_, ?_, ?_⟩
  · intro api server port ssl e h
    unfold new_connection at h
    by_cases hsrv : server = []
    · rw [if_pos hsrv] at h; exact nomatch h
    · rw [if_neg hsrv] at h
      cases hcs : cstring_new server with
      | error e2 => rw [hcs] at h; exact nomatch h
      | ok s2 =>
        rw [hcs] at h
        cases hnc : api.newConnection with
        | none => rw [hnc] at h; exact nomatch h
        | some rc =>
          rw [hnc] at h
          cases rc with
          | none => exact nomatch h
          | some p =>
            cases hsu : api.setUserdata with
            | none =>
              rw [hsu] at h
              refine ⟨rfl, ?_⟩
              cases hgu : api.getUserdata with
              | none =>
                simp only [http_connection_inner_drop, hsu, hgu] at h ⊢
                injection h with h1
                rw [h1]
              | some u =>
                simp only [http_connection_inner_drop, hsu, hgu] at h ⊢
                injection h with h1
                rw [h1]
            | some u => rw [hsu] at h; exact nomatch h
  · intro api path headers e
    simp only [http_get, ensure_net_ok]
    split <;> try simp
    split <;> try simp
    split <;> simp
  · intro api path headers body e
    simp only [http_post, ensure_net_ok]
    split <;> try simp
    split <;> try simp
    split <;> simp
  · intro api method path headers body e
    simp only [http_query, ensure_net_ok]
    split <;> try simp
    split <;> try simp
    split <;> try simp
    split <;> simp
  · intro api blen e hblen
    simp only [http_read]
    rw [if_neg hblen]
    split <;> try simp
    split <;> try simp
    split <;> simp
  · intro api len e
    simp only [http_discard]
    split <;> try simp
    split <;> try simp
    split <;> try simp
    split <;> simp
  · intro api t e
    simp only [set_connect_timeout]
    split <;> try simp
    split <;> simp
  · intro api b e
    simp only [set_keep_alive]
    split <;> simp
  · intro api s t e
    simp only [set_byte_range]
    split <;> try simp
    split <;> try simp
    split <;> simp
  · intro api t e
    simp only [set_read_timeout]
    split <;> try simp
    split <;> simp
  · intro api t e
    simp only [set_read_buffer_size]
    split <;> try simp
    split <;> simp
  · intro api server port ssl purpose cb heap e
    simp only [request_access]
    split <;> try simp
    split <;> try simp
    split <;> simp
  · intro api e h
    by_contra hc
    push_neg at hc
    obtain ⟨h1, h2, h3, h4⟩ := hc
    obtain ⟨u1, hu1⟩ := Option.ne_none_iff_exists'.mp h1
    obtain ⟨u2, hu2⟩ := Option.ne_none_iff_exists'.mp h2
    obtain ⟨u3, hu3⟩ := Option.ne_none_iff_exists'.mp h3
    obtain ⟨u4, hu4⟩ := Option.ne_none_iff_exists'.mp h4
    simp [http_connection_inner_drop, hu1, hu2, hu3, hu4] at h

/-- Witness for C5 (amended): a non-empty-buffer read on the empty host
table does not panic. -/
theorem request_path_no_panics_witness :
    (http_read apiNone 16).1 ≠ Outcome.panic "x" :=
  request_path_no_panics.2.2.2.2.1 apiNone 16 "x" (by decide)

/-- Helper: appending a fresh allocation and then filtering it away
restores the original heap contents. -/
theorem filter_fresh_alloc (l : List (Nat × Option Nat)) (n : Nat) (c : Option Nat)
    (h : ∀ a ∈ l, a.1 < n) :
    (l ++ [(n, c)]).filter (fun a => a.1 != n) = l := by
  rw [List.filter_append]
  have h1 : l.filter (fun a => a.1 != n) = l := by
    apply List.filter_eq_self.mpr
    intro a ha
    simpa [bne_iff_ne] using Nat.ne_of_lt (h a ha)
  have h2 : [(n, c)].filter (fun a => a.1 != n) = [] := by simp
  rw [h1, h2, List.append_nil]

/-- Helper: looking up a fresh allocation appended to the heap finds it. -/
theorem find_fresh_alloc (l : List (Nat × Option Nat)) (n : Nat) (c : Option Nat)
    (h : ∀ a ∈ l, a.1 < n) :
    (l ++ [(n, c)]).find? (fun a => a.1 == n) = some (n, c) := by
  induction l with
  | nil => simp
  | cons x xs ih =>
    have hx : (x.1 == n) = false := by
      simpa using Nat.ne_of_lt (h x (List.mem_cons_self x xs))
    rw [List.cons_append, List.find?_cons, hx]
    exact ih (fun a ha => h a (List.mem_cons_of_mem _ ha))

/-- Counterexample for claim C3 as stated: on a host whose requestAccess
function pointer is absent, a call supplying a callback allocates the boxed
AccessRequestState and then errors out without reclaiming it and without
ever handing it to the host — the allocation is leaked, never dropped. -/
theorem request_access_can_leak :
    (request_access apiNone none 80 false none (some 5) ⟨0, []⟩).reply =
      .err "self.api().requestAccess did not contain a function pointer" ∧
    (request_access apiNone none 80 false none (some 5) ⟨0, []⟩).heap.live =
      [(0, some 5)] ∧
    (request_access apiNone none 80 false none (some 5) ⟨0, []⟩).hostUserdata = none ∧
    (request_access apiNone none 80 false none (some 5) ⟨0, []⟩).trace = [] :=
  ⟨rfl, rfl, rfl, rfl⟩

/-- Claim C3 (amended): for every call to request_access that supplies a
callback, on a host whose requestAccess function is present: if the reply
is anything other than kAccessAsk the boxed AccessRequestState is reclaimed
and dropped immediately after the native call returns, leaving the heap of
live allocations exactly as before the call; if the reply is kAccessAsk the
box stays live, its address is the userdata handed to the host, and the
single future trampoline invocation reclaims and drops it exactly once
(restoring the heap) while invoking the stored closure.  If the
requestAccess function pointer is absent the call instead fails and the
box is leaked. -/
theorem request_access_reclaims_state (api : HttpApi) (reply : accessReply)
    (server purpose : Option (List UInt8)) (port : Int) (ssl : Bool)
    (cb : Nat) (heap : AccessHeap) (allowed : Bool)
    (hapi : api.requestAccess = some reply)
    (hWF : ∀ a ∈ heap.live, a.1 < heap.nextId)
    (hs : ∀ s, server = some s → (0 : UInt8) ∉ s)
    (hp : ∀ s, purpose = some s → (0 : UInt8) ∉ s) :
    (request_access api server port ssl purpose (some cb) heap).reply = .ok reply ∧
    (reply ≠ accessReply.kAccessAsk →
      (request_access api server port ssl purpose (some cb) heap).heap.live =
        heap.live) ∧
    (reply = accessReply.kAccessAsk →
      (request_access api server port ssl purpose (some cb) heap).heap.live =
        heap.live ++ [(heap.nextId, some cb)] ∧
      (request_access api server port ssl purpose (some cb) heap).hostUserdata =
        some heap.nextId ∧
      http_access_request_callback allowed
        (request_access api server port ssl purpose (some cb) heap).hostUserdata
        (request_access api server port ssl purpose (some cb) heap).heap =
        .ok (⟨heap.nextId + 1, heap.live⟩, [cb])) := by
  have hso : optional_cstring server = .ok server := by
    cases server with
    | none => rfl
    | some s => simp [optional_cstring, cstring_new, hs s rfl, Except.map]
  have hpo : optional_cstring purpose = .ok purpose := by
    cases purpose with
    | none => rfl
    | some s => simp [optional_cstring, cstring_new, hp s rfl, Except.map]
  by_cases hask : reply = accessReply.kAccessAsk
  · have hre : request_access api server port ssl purpose (some cb) heap =
        ⟨.ok reply, ⟨heap.nextId + 1, heap.live ++ [(heap.nextId, some cb)]⟩,
          some heap.nextId, [.requestAccess]⟩ := by
      simp [request_access, hso, hpo, hapi, hask]
    refine ⟨by rw [hre], fun hcon => absurd hask hcon, fun _ => ⟨by rw [hre], by rw [hre], ?_⟩⟩
    rw [hre]
    simp only [http_access_request_callback]
    rw [find_fresh_alloc _ _ _ hWF]
    rw [filter_fresh_alloc _ _ _ hWF]
  · have hre : request_access api server port ssl purpose (some cb) heap =
        ⟨.ok reply, ⟨heap.nextId + 1,
            (heap.live ++ [(heap.nextId, some cb)]).filter
              (fun a => a.1 != heap.nextId)⟩,
          some heap.nextId, [.requestAccess]⟩ := by
      simp [request_access, hso, hpo, hapi, hask]
    refine ⟨by rw [hre], fun _ => ?_, fun hcon => absurd hcon hask⟩
    rw [hre]
    exact filter_fresh_alloc _ _ _ hWF

/-- Helper: a simple setter entered with the slot table unborrowed never
hits the dynamic borrow check, and on success leaves it unborrowed. -/
theorem configure_simple_callback_safe (setter : Option Unit) (cb : Option Nat)
    (sr : HttpCallbackSlots → Option Nat)
    (sw : HttpCallbackSlots → Option Nat → HttpCallbackSlots)
    (rg : NativeRegistration → Bool → NativeRegistration)
    (c : ConnState) (h0 : c.borrowed = false) :
    (∀ e, configure_simple_callback setter cb sr sw rg c ≠ CallResult.panic e) ∧
    (∀ c1, configure_simple_callback setter cb sr sw rg c = .ok c1 →
      c1.borrowed = false) := by
  unfold configure_simple_callback
  rw [if_neg (by simp [h0])]
  cases setter with
  | none => exact ⟨(fun e h => nomatch h), (fun c1 h => nomatch h)⟩
  | some u =>
    refine ⟨(fun e h => nomatch h), fun c1 h => ?_⟩
    injection h with h1
    subst h1
    exact h0

/-- Helper: the successful-outcome shape of a simple setter. -/
theorem configure_simple_callback_ok (setter : Option Unit) (cb : Option Nat)
    (sr : HttpCallbackSlots → Option Nat)
    (sw : HttpCallbackSlots → Option Nat → HttpCallbackSlots)
    (rg : NativeRegistration → Bool → NativeRegistration)
    (c c1 : ConnState) (h0 : c.borrowed = false)
    (h : configure_simple_callback setter cb sr sw rg c = .ok c1) :
    c1 = { c with
      slots := sw c.slots cb
      registered := rg c.registered ((sr (sw c.slots cb)).isSome) } := by
  unfold configure_simple_callback at h
  rw [if_neg (by simp [h0])] at h
  cases setter with
  | none => exact nomatch h
  | some u =>
    injection h with h1
    exact h1.symm

/-- Helper: the header setter never hits the dynamic borrow check from an
unborrowed state, and on success leaves it unborrowed. -/
theorem on_header_received_safe (api : HttpApi) (cb : Option Nat)
    (c : ConnState) (h0 : c.borrowed = false) :
    (∀ e, on_header_received api cb c ≠ CallResult.panic e) ∧
    (∀ c1, on_header_received api cb c = .ok c1 → c1.borrowed = false) := by
  unfold on_header_received
  rw [if_neg (by simp [h0])]
  cases api.setHeaderReceivedCallback with
  | none => exact ⟨(fun e h => nomatch h), (fun c1 h => nomatch h)⟩
  | some u =>
    refine ⟨(fun e h => nomatch h), fun c1 h => ?_⟩
    injection h with h1
    subst h1
    exact h0

/-- Helper: the successful-outcome shape of the header setter. -/
theorem on_header_received_ok (api : HttpApi) (cb : Option Nat)
    (c c1 : ConnState) (h0 : c.borrowed = false)
    (h : on_header_received api cb c = .ok c1) :
    c1 = { c with
      slots := { c.slots with header_received := cb }
      registered := { c.registered with header_received := cb.isSome } } := by
  unfold on_header_received at h
  rw [if_neg (by simp [h0])] at h
  cases hA : api.setHeaderReceivedCallback with
  | none => rw [hA] at h; exact nomatch h
  | some u =>
    rw [hA] at h
    injection h with h1
    exact h1.symm

/-- Helper: any setter call from an unborrowed state never panics and, on
success, leaves the state unborrowed. -/
theorem apply_setter_safe (api : HttpApi) (call : SetterCall) (c : ConnState)
    (h0 : c.borrowed = false) :
    (∀ e, apply_setter api call c ≠ CallResult.panic e) ∧
    (∀ c1, apply_setter api call c = .ok c1 → c1.borrowed = false) := by
  cases call with
  | on_header_received cb => exact on_header_received_safe api cb c h0
  | on_headers_read cb =>
    exact configure_simple_callback_safe api.setHeadersReadCallback cb
      (fun s => s.headers_read) (fun s v => { s with headers_read := v })
      (fun r b => { r with headers_read := b }) c h0
  | on_response cb =>
    exact configure_simple_callback_safe api.setResponseCallback cb
      (fun s => s.response) (fun s v => { s with response := v })
      (fun r b => { r with response := b }) c h0
  | on_request_complete cb =>
    exact configure_simple_callback_safe api.setRequestCompleteCallback cb
      (fun s => s.request_complete) (fun s v => { s with request_complete := v })
      (fun r b => { r with request_complete := b }) c h0
  | on_connection_closed cb =>
    exact configure_simple_callback_safe api.setConnectionClosedCallback cb
      (fun s => s.connection_closed) (fun s v => { s with connection_closed := v })
      (fun r b => { r with connection_closed := b }) c h0

/-- Helper: each successful setter call preserves the registration
invariant — every registration flag equals its slot's occupancy. -/
theorem apply_setter_inv (api : HttpApi) (call : SetterCall) (c c1 : ConnState)
    (h0 : c.borrowed = false)
    (hinv : ∀ k, regOf c.registered k = (slotOf c.slots k).isSome)
    (h : apply_setter api call c = .ok c1) :
    ∀ k, regOf c1.registered k = (slotOf c1.slots k).isSome := by
  have h1 := hinv EventKind.headerReceived
  have h2 := hinv EventKind.headersRead
  have h3 := hinv EventKind.response
  have h4 := hinv EventKind.requestComplete
  have h5 := hinv EventKind.connectionClosed
  simp only [regOf, slotOf] at h1 h2 h3 h4 h5
  cases call with
  | on_header_received cb =>
    have hc := on_header_received_ok api cb c c1 h0 h
    subst hc
    intro k; cases k <;> simp [regOf, slotOf, h1, h2, h3, h4, h5]
  | on_headers_read cb =>
    have hc := configure_simple_callback_ok api.setHeadersReadCallback cb
      (fun s => s.headers_read) (fun s v => { s with headers_read := v })
      (fun r b => { r with headers_read := b }) c c1 h0 h
    subst hc
    intro k; cases k <;> simp [regOf, slotOf, h1, h2, h3, h4, h5]
  | on_response cb =>
    have hc := configure_simple_callback_ok api.setResponseCallback cb
      (fun s => s.response) (fun s v => { s with response := v })
      (fun r b => { r with response := b }) c c1 h0 h
    subst hc
    intro k; cases k <;> simp [regOf, slotOf, h1, h2, h3, h4, h5]
  | on_request_complete cb =>
    have hc := configure_simple_callback_ok api.setRequestCompleteCallback cb
      (fun s => s.request_complete) (fun s v => { s with request_complete := v })
      (fun r b => { r with request_complete := b }) c c1 h0 h
    subst hc
    intro k; cases k <;> simp [regOf, slotOf, h1, h2, h3, h4, h5]
  | on_connection_closed cb =>
    have hc := configure_simple_callback_ok api.setConnectionClosedCallback cb
      (fun s => s.connection_closed) (fun s v => { s with connection_closed := v })
      (fun r b => { r with connection_closed := b }) c c1 h0 h
    subst hc
    intro k; cases k <;> simp [regOf, slotOf, h1, h2, h3, h4, h5]

/-- Helper: a successful setter sequence from an unborrowed,
invariant-satisfying state ends unborrowed and invariant-satisfying. -/
theorem apply_setters_ok_inv (api : HttpApi) (calls : List SetterCall) :
    ∀ c c1 : ConnState, c.borrowed = false →
      (∀ k, regOf c.registered k = (slotOf c.slots k).isSome) →
      apply_setters api calls c = .ok c1 →
      c1.borrowed = false ∧
        ∀ k, regOf c1.registered k = (slotOf c1.slots k).isSome := by
  induction calls with
  | nil =>
    intro c c1 h0 hinv h
    cases h
    exact ⟨h0, hinv⟩
  | cons hd tl ih =>
    intro c c1 h0 hinv h
    simp only [apply_setters] at h
    cases hc : apply_setter api hd c with
    | ok cmid =>
      rw [hc] at h
      have hb := (apply_setter_safe api hd c h0).2 cmid hc
      exact ih cmid c1 hb (apply_setter_inv api hd c cmid h0 hinv hc) h
    | err e cmid => rw [hc] at h; exact nomatch h
    | panic e => rw [hc] at h; exact nomatch h

/-- Helper: a setter sequence entered with the slot table unborrowed never
hits the dynamic borrow check. -/
theorem apply_setters_no_panic (api : HttpApi) (calls : List SetterCall) :
    ∀ c : ConnState, c.borrowed = false →
      ∀ e, apply_setters api calls c ≠ CallResult.panic e := by
  induction calls with
  | nil => intro c h0 e h; exact nomatch h
  | cons hd tl ih =>
    intro c h0 e
    simp only [apply_setters]
    cases hc : apply_setter api hd c with
    | ok cmid =>
      exact ih cmid ((apply_setter_safe api hd c h0).2 cmid hc) e
    | err e2 cmid => exact fun h => nomatch h
    | panic e2 => exact absurd hc ((apply_setter_safe api hd c h0).1 e2)

/-- Witness for C3 (amended): a pending (kAccessAsk) request hands the
fresh box to the host and the later trampoline invocation reclaims it and
runs the closure. -/
theorem request_access_reclaims_state_witness :
    http_access_request_callback true
      (request_access { apiNone with requestAccess := some accessReply.kAccessAsk }
        none 80 false none (some 7) ⟨0, []⟩).hostUserdata
      (request_access { apiNone with requestAccess := some accessReply.kAccessAsk }
        none 80 false none (some 7) ⟨0, []⟩).heap =
      .ok (⟨1, []⟩, [7]) :=
  ((request_access_reclaims_state _ accessReply.kAccessAsk none none 80 false 7
      ⟨0, []⟩ true rfl (by simp) (by simp) (by simp)).2.2 rfl).2.2

/-- Claim C1: after any sequence of successful callback-setter calls on a
fresh connection, the native trampoline registration state of each event
kind equals "registered" iff the most recently supplied value for that slot
was a closure rather than None; in particular a trampoline is never left
registered while its slot is empty. -/
theorem registration_tracks_slots (api : HttpApi) (calls : List SetterCall)
    (st : ConnState) (h : apply_setters api calls initConnState = .ok st) :
    (∀ k, regOf st.registered k = (slotOf st.slots k).isSome) ∧
    (∀ k, regOf st.registered k = true → (slotOf st.slots k).isSome = true) := by
  have hinit : ∀ k, regOf initConnState.registered k =
      (slotOf initConnState.slots k).isSome := by
    intro k; cases k <;> rfl
  have hmain := apply_setters_ok_inv api calls initConnState st rfl hinit h
  exact ⟨hmain.2, fun k hk => by rw [← hmain.2 k]; exact hk⟩

/-- Witness for C1: setting a response closure, setting a headers-read
closure, then clearing the response slot again leaves exactly the
headers-read trampoline registered. -/
theorem registration_tracks_slots_witness :
    regOf (⟨⟨none, some 2, none, none, none⟩, false,
        ⟨false, true, false, false, false⟩⟩ : ConnState).registered
      EventKind.response =
    (slotOf (⟨⟨none, some 2, none, none, none⟩, false,
        ⟨false, true, false, false, false⟩⟩ : ConnState).slots
      EventKind.response).isSome :=
  (registration_tracks_slots
    { apiNone with setHeadersReadCallback := some (), setResponseCallback := some () }
    [SetterCall.on_response (some 1), SetterCall.on_headers_read (some 2),
      SetterCall.on_response none]
    ⟨⟨none, some 2, none, none, none⟩, false, ⟨false, true, false, false, false⟩⟩
    rfl).1 EventKind.response

/-- Claim C2: a trampoline invocation (any of the five event kinds) whose
connection userdata is null, or resolves to a weak token whose owning
handle has been dropped, is a no-op: the state is unchanged, no closure is
invoked (the flag is false), and no panic occurs. -/
theorem dead_token_trampolines_noop (st : DispatchState)
    (h : st.userdata = none ∨ ∃ t, st.userdata = some t ∧ t ∉ st.aliveTokens) :
    (∀ body, http_headers_read_trampoline body st = .ok (st, false)) ∧
    (∀ body, http_response_trampoline body st = .ok (st, false)) ∧
    (∀ body, http_request_complete_trampoline body st = .ok (st, false)) ∧
    (∀ body, http_connection_closed_trampoline body st = .ok (st, false)) ∧
    (∀ key value body,
      http_header_received_trampoline key value body st = .ok (st, false)) := by
  have hres : connection_from_userdata st = none := by
    rcases h with h | ⟨t, ht, hal⟩ <;>
      simp [connection_from_userdata, *]
  have hsimple : ∀ accessor body,
      run_simple_callback accessor body st = .ok (st, false) := by
    intro accessor body
    simp [run_simple_callback, hres]
  refine ⟨fun b => hsimple _ b, fun b => hsimple _ b, fun b => hsimple _ b,
    fun b => hsimple _ b, ?_⟩
  intro key value body
  show run_header_callback key value body st = .ok (st, false)
  by_cases hk : (key.isNone || value.isNone) = true
  · simp [run_header_callback, hk]
  · simp [run_header_callback, hk, hres]

/-- Witness for C2: a response trampoline fired for a token whose owner is
gone leaves the world untouched and invokes nothing. -/
theorem dead_token_trampolines_noop_witness :
    http_response_trampoline (fun s => CallResult.ok s)
      ⟨true, true, some 3, [], initConnState⟩ =
      .ok (⟨true, true, some 3, [], initConnState⟩, false) :=
  (dead_token_trampolines_noop ⟨true, true, some 3, [], initConnState⟩
    (Or.inr ⟨3, rfl, by decide⟩)).2.1 (fun s => CallResult.ok s)

/-- Claim C4: when a trampoline dispatch finds a registered closure, the
mutable borrow on the slot table is released before the closure is invoked
— the closure runs against the borrow-free state itself — and consequently
a closure that reconfigures callbacks on its own connection (including
replacing or clearing its own slot) never triggers a dynamic borrow-check
failure, for the simple dispatch and the header dispatch alike. -/
theorem dispatch_releases_borrow_before_invoke (st : DispatchState) (tok : Nat)
    (h0 : st.conn.borrowed = false)
    (hres : connection_from_userdata st = some tok) :
    (∀ accessor (cb : Nat) body, accessor st.conn.slots = some cb →
      run_simple_callback accessor body st = wrapInvoked (body st)) ∧
    (∀ accessor (cb : Nat) api calls e, accessor st.conn.slots = some cb →
      run_simple_callback accessor (reconfigure_from_closure api calls) st ≠
        CallResult.panic e) ∧
    (∀ key value (cb : Nat) body, st.conn.slots.header_received = some cb →
      run_header_callback (some key) (some value) body st =
        wrapInvoked (body st)) ∧
    (∀ key value (cb : Nat) api calls e, st.conn.slots.header_received = some cb →
      run_header_callback (some key) (some value)
        (reconfigure_from_closure api calls) st ≠ CallResult.panic e) := by
  obtain ⟨a, g, u, al, conn⟩ := st
  obtain ⟨sl, b, r⟩ := conn
  have hb : b = false := h0
  subst hb
  have hrun : ∀ accessor (cb : Nat) body, accessor sl = some cb →
      run_simple_callback accessor body ⟨a, g, u, al, ⟨sl, false, r⟩⟩ =
        wrapInvoked (body ⟨a, g, u, al, ⟨sl, false, r⟩⟩) := by
    intro accessor cb body hcb
    simp [run_simple_callback, hres, hcb]
  have hrunH : ∀ key value (cb : Nat) body, sl.header_received = some cb →
      run_header_callback (some key) (some value) body ⟨a, g, u, al, ⟨sl, false, r⟩⟩ =
        wrapInvoked (body ⟨a, g, u, al, ⟨sl, false, r⟩⟩) := by
    intro key value cb body hcb
    simp [run_header_callback, hres, hcb]
  have hnopanic : ∀ api calls e,
      wrapInvoked (reconfigure_from_closure api calls ⟨a, g, u, al, ⟨sl, false, r⟩⟩) ≠
        CallResult.panic e := by
    intro api calls e
    unfold reconfigure_from_closure
    cases happ : apply_setters api calls (⟨a, g, u, al, ⟨sl, false, r⟩⟩ : DispatchState).conn with
    | ok c => simp [wrapInvoked]
    | err e2 c => simp [wrapInvoked]
    | panic e2 => exact absurd happ (apply_setters_no_panic api calls _ rfl e2)
  refine ⟨hrun, ?_, hrunH, ?_⟩
  · intro accessor cb api calls e hcb
    rw [hrun accessor cb _ hcb]
    exact hnopanic api calls e
  · intro key value cb api calls e hcb
    rw [hrunH key value cb _ hcb]
    exact hnopanic api calls e

/-- Witness for C4: a response dispatch whose closure clears its own slot
from inside its own invocation completes without a borrow panic. -/
theorem dispatch_releases_borrow_before_invoke_witness :
    run_simple_callback (fun s => s.response)
      (reconfigure_from_closure { apiNone with setResponseCallback := some () }
        [SetterCall.on_response none])
      ⟨true, true, some 3, [3], ⟨⟨none, none, some 9, none, none⟩, false,
        ⟨false, false, true, false, false⟩⟩⟩ ≠ CallResult.panic "x" :=
  (dispatch_releases_borrow_before_invoke
    ⟨true, true, some 3, [3], ⟨⟨none, none, some 9, none, none⟩, false,
      ⟨false, false, true, false, false⟩⟩⟩ 3 rfl rfl).2.1
    (fun s => s.response) 9 { apiNone with setResponseCallback := some () }
    [SetterCall.on_response none] "x" rfl

end CrankstartNet
